import Mathlib

/-!
Verification of the raw-HID LED protocol firmware
(src/firmware/raw_hid/keymap.c) for the Work Louder Micro keyboard.

The firmware keeps a small mutable state (direct mode flag, a 12-entry
HSV color buffer, a 16-bit blink mask, a 16-bit blink period) and two
entry points:

* `raw_hid_receive` — the command dispatcher, invoked per 32-byte frame;
* `rgb_matrix_indicators_user` — the per-tick render callback.

We embed both shallowly: the dispatcher becomes a pure function from
(state, inbound frame) to (state, list of sent frames, restarted flag),
and the render callback a pure function of (timer value, state, index).
Bytes are `Nat` values reduced mod 256 at each read, mirroring the
`uint8_t *data` accesses of the C code.
-/

/-- Number of per-key LEDs (`#define NUM_LEDS 12`). -/
def NUM_LEDS : Nat := 12

/-- One HSV color: the three bytes stored per LED in `led_buf`. -/
abbrev Color := Nat × Nat × Nat

/-- The firmware's mutable globals: `direct_mode`, `led_buf`,
`blink_mask` and `blink_period` from keymap.c. -/
structure FrameState where
  direct_mode : Bool
  led_buf : List Color
  blink_mask : Nat
  blink_period : Nat
deriving DecidableEq, Repr

/-- Reset state of the globals: C zero-initialises `direct_mode` and
`led_buf`; `blink_period` is initialised to 500 ms. -/
def initState : FrameState :=
  { direct_mode := false
    led_buf := List.replicate NUM_LEDS (0, 0, 0)
    blink_mask := 0
    blink_period := 500 }

/-- Read byte `i` of a frame.  A frame is a 32-byte report; reads beyond
the provided list are the report's zero padding, and every read is a
`uint8_t`, hence the reduction mod 256. -/
def byte (d : List Nat) (i : Nat) : Nat := d.getD i 0 % 256

/-- A response frame with opcode echo in byte 0 and status in byte 1
(the dispatcher zero-fills `response[32]`, then sets bytes 0 and 1). -/
def resp2 (b0 b1 : Nat) : List Nat :=
  ((List.replicate 32 0).set 0 b0).set 1 b1

/-- A response frame that additionally carries a payload in byte 2
(used by enter-direct-mode and ping, which report the LED count). -/
def resp3 (b0 b1 b2 : Nat) : List Nat :=
  (((List.replicate 32 0).set 0 b0).set 1 b1).set 2 b2

/-- The body of the `case 0x02` loop: write `count` consecutive HSV
triples from the payload into the buffer starting at `start`. -/
def setRangeBuf (d : List Nat) (start count : Nat) (buf : List Color) : List Color :=
  (List.range count).foldl
    (fun b i => b.set (start + i) (byte d (3 + i * 3), byte d (4 + i * 3), byte d (5 + i * 3)))
    buf

/-- The body of the `case 0x04` loop: write one HSV triple into every
entry of the buffer. -/
def setAllBuf (c : Color) (buf : List Color) : List Color :=
  (List.range NUM_LEDS).foldl (fun b i => b.set i c) buf

/-- Shallow embedding of `raw_hid_receive` from keymap.c.  Returns the
new state, the frames passed to `raw_hid_send` in order, and whether
`reset_keyboard()` was reached (after which control never returns, so
nothing past it executes).  The underglow commands 0x06 and 0x0A drive
the separate rgblight driver, outside this state, and are pure
acknowledgements here. -/
def raw_hid_receive (s : FrameState) (d : List Nat) : FrameState × List (List Nat) × Bool :=
  let cmd := byte d 0
  if cmd = 0x01 then
    -- Set single LED: guarded by idx < NUM_LEDS && direct_mode
    let idx := byte d 1
    let s' := if idx < NUM_LEDS ∧ s.direct_mode then
      { s with led_buf := s.led_buf.set idx (byte d 2, byte d 3, byte d 4) } else s
    (s', [resp2 cmd 0x01], false)
  else if cmd = 0x02 then
    -- Set LED range: guarded by direct_mode && start+count <= NUM_LEDS && count <= 9
    let start := byte d 1
    let count := byte d 2
    let s' := if s.direct_mode ∧ start + count ≤ NUM_LEDS ∧ count ≤ 9 then
      { s with led_buf := setRangeBuf d start count s.led_buf } else s
    (s', [resp2 cmd 0x01], false)
  else if cmd = 0x03 then
    -- Restore normal effect
    ({ s with direct_mode := false, blink_mask := 0 }, [resp2 cmd 0x01], false)
  else if cmd = 0x04 then
    -- Set all LEDs same color: guarded by direct_mode
    let s' := if s.direct_mode then
      { s with led_buf := setAllBuf (byte d 1, byte d 2, byte d 3) s.led_buf } else s
    (s', [resp2 cmd 0x01], false)
  else if cmd = 0x05 then
    -- Enter direct mode: memset(led_buf, 0, ...), clear blink mask
    ({ s with direct_mode := true, blink_mask := 0,
              led_buf := List.replicate NUM_LEDS (0, 0, 0) },
     [resp3 cmd 0x01 NUM_LEDS], false)
  else if cmd = 0x06 then
    -- Set underglow color (rgblight driver, outside FrameState)
    (s, [resp2 cmd 0x01], false)
  else if cmd = 0x07 then
    -- Set blink flag for one LED: guarded by idx < NUM_LEDS only
    let idx := byte d 1
    let s' := if idx < NUM_LEDS then
      (if byte d 2 ≠ 0 then { s with blink_mask := s.blink_mask ||| (1 <<< idx) }
       else { s with blink_mask := s.blink_mask &&& (65535 ^^^ (1 <<< idx)) })
      else s
    (s', [resp2 cmd 0x01], false)
  else if cmd = 0x08 then
    -- Set blink period: 16-bit little-endian, floored at 50
    let p := byte d 1 ||| (byte d 2 <<< 8)
    ({ s with blink_period := if p < 50 then 50 else p }, [resp2 cmd 0x01], false)
  else if cmd = 0x0A then
    -- Underglow breathing effect (rgblight driver, outside FrameState)
    (s, [resp2 cmd 0x01], false)
  else if cmd = 0x09 then
    -- Reboot into bootloader: requires magic bytes 0xB0, 0x07
    if byte d 1 = 0xB0 ∧ byte d 2 = 0x07 then
      (s, [resp2 cmd 0x01], true)
    else
      (s, [resp2 cmd 0xFF], false)
  else if cmd = 0xF0 then
    -- Ping
    (s, [resp3 cmd 0x01 NUM_LEDS], false)
  else
    -- Unknown opcode
    (s, [resp2 cmd 0xFF], false)

/-- Process a sequence of inbound frames in order; a frame that reaches
`reset_keyboard()` restarts the device, so nothing after it runs. -/
def runFrames (s : FrameState) (ds : List (List Nat)) : FrameState :=
  match ds with
  | [] => s
  | d :: rest =>
    let r := raw_hid_receive s d
    if r.2.2 then r.1 else runFrames r.1 rest

/-- Modelled from the spec: conversion of a stored HSV Color to the
device's native RGB color space.  The spec's Render Engine outputs "its
stored Color converted to the device's native color space"; the
conversion routine itself is QMK library code (`hsv_to_rgb`) that is not
part of this repository, reproduced here from its standard integer
algorithm. -/
def hsv_to_rgb (c : Color) : Nat × Nat × Nat :=
  let h := c.1 % 256
  let s := c.2.1 % 256
  let v := c.2.2 % 256
  if s = 0 then (v, v, v)
  else
    let region := h * 6 / 255
    let remainder := (h * 2 - region * 85) * 3
    let p := (v * (255 - s)) >>> 8
    let q := (v * (255 - ((s * remainder) >>> 8))) >>> 8
    let t := (v * (255 - ((s * (255 - remainder)) >>> 8))) >>> 8
    if region = 0 ∨ region = 6 then (v, t, p)
    else if region = 1 then (q, v, p)
    else if region = 2 then (p, v, t)
    else if region = 3 then (p, q, v)
    else if region = 4 then (t, p, v)
    else (v, p, q)

/-- The per-LED body of the render loop in `rgb_matrix_indicators_user`:
a blinking LED in the off phase is black, every other LED shows its
stored color converted through `set_led_rgb` (i.e. `hsv_to_rgb`).
`t` is the value of `timer_read()` at this tick. -/
def renderLed (t : Nat) (s : FrameState) (i : Nat) : Nat × Nat × Nat :=
  let blinkOn := t % s.blink_period < s.blink_period / 2
  if s.blink_mask &&& (1 <<< i) ≠ 0 ∧ ¬ blinkOn then (0, 0, 0)
  else hsv_to_rgb (s.led_buf.getD i (0, 0, 0))

/-- Shallow embedding of `rgb_matrix_indicators_user`: in direct mode
the callback overrides the 12 per-key LEDs with `renderLed`; in native
mode it touches nothing (`none`). -/
def rgb_matrix_indicators_user (t : Nat) (s : FrameState) : Option (Nat → Nat × Nat × Nat) :=
  if s.direct_mode then some (renderLed t s) else none

/-- The enter-direct-mode command frame (opcode 0x05, no payload). -/
def enterF : List Nat := [0x05]

/-- The restore-effect (exit) command frame (opcode 0x03, no payload). -/
def exitF : List Nat := [0x03]

/-- A set-one frame `[0x01, idx, h, s, v]`. -/
def setOneF (i : Nat) (c : Color) : List Nat := [0x01, i, c.1, c.2.1, c.2.2]

/-- A set-all frame `[0x04, h, s, v]`. -/
def setAllF (c : Color) : List Nat := [0x04, c.1, c.2.1, c.2.2]

/-- A set-blink-period frame `[0x08, lo, hi]`. -/
def setBlinkPeriodF (lo hi : Nat) : List Nat := [0x08, lo, hi]

/-- The five mutation opcodes: set-one, set-range, set-all,
set-blink-flag, set-blink-period. -/
def isMutationFrame (d : List Nat) : Prop :=
  byte d 0 = 0x01 ∨ byte d 0 = 0x02 ∨ byte d 0 = 0x04 ∨
  byte d 0 = 0x07 ∨ byte d 0 = 0x08

instance (d : List Nat) : Decidable (isMutationFrame d) := by
  unfold isMutationFrame; infer_instance

/-- A representative Managed-mode state: the state reached right after
an enter-direct-mode command from reset. -/
def mState : FrameState :=
  { direct_mode := true
    led_buf := List.replicate NUM_LEDS (0, 0, 0)
    blink_mask := 0
    blink_period := 500 }

/-- Combining a low byte with a shifted high byte by bitwise or is plain
little-endian place-value arithmetic, because the bit ranges are
disjoint. -/
lemma lor_shiftLeft_eq_add (lo hi : Nat) (h : lo < 256) :
    lo ||| (hi <<< 8) = lo + 256 * hi := by
  have h256 : lo < 2 ^ 8 := h
  have key : lo + 256 * hi = 2 ^ 8 * hi + lo := by ring
  rw [key]
  apply Nat.eq_of_testBit_eq
  intro j
  rw [Nat.testBit_lor, Nat.testBit_shiftLeft, Nat.testBit_mul_pow_two_add hi h256 j]
  by_cases hj : j < 8
  · simp [hj, Nat.not_le.mpr hj]
  · have hge : 8 ≤ j := Nat.le_of_not_lt hj
    have hlo : lo.testBit j = false :=
      Nat.testBit_lt_two_pow (lt_of_lt_of_le h256 (Nat.pow_le_pow_right (by norm_num) hge))
    simp [hlo, hge, hj]

/-- Reading a frame byte always yields a value below 256. -/
lemma byte_lt (d : List Nat) (i : Nat) : byte d i < 256 :=
  Nat.mod_lt _ (by norm_num)

/-- Claim C5: processing an enter-managed command (opcode 0x05) from any
prior state sets the mode to Managed, zeroes every LED color, clears
every blink flag, and returns a success response whose third byte
carries the LED Index count (12). -/
theorem c5_enter_managed (s : FrameState) (d : List Nat) (h : byte d 0 = 0x05) :
    raw_hid_receive s d =
      ({ direct_mode := true, led_buf := List.replicate NUM_LEDS (0, 0, 0),
         blink_mask := 0, blink_period := s.blink_period },
       [resp3 0x05 0x01 NUM_LEDS], false) ∧
    (resp3 0x05 0x01 NUM_LEDS).getD 1 0 = 0x01 ∧
    (resp3 0x05 0x01 NUM_LEDS).getD 2 0 = NUM_LEDS := by
  refine ⟨?_, by decide, by decide⟩
  simp [raw_hid_receive, h]

/-- Witness for C5: the enter frame applied to the reset state. -/
theorem c5_enter_managed_witness :
    raw_hid_receive initState enterF =
      ({ direct_mode := true, led_buf := List.replicate NUM_LEDS (0, 0, 0),
         blink_mask := 0, blink_period := initState.blink_period },
       [resp3 0x05 0x01 NUM_LEDS], false) :=
  (c5_enter_managed initState enterF (by decide)).1

/-- Claim C7: a set-blink-period command (opcode 0x08) stores the 16-bit
little-endian payload value exactly when it is at least the 50 ms floor,
and stores the floor 50 when the value is below it. -/
theorem c7_blink_period_clamp (s : FrameState) (d : List Nat) (h : byte d 0 = 0x08) :
    (50 ≤ byte d 1 + 256 * byte d 2 →
      (raw_hid_receive s d).1.blink_period = byte d 1 + 256 * byte d 2) ∧
    (byte d 1 + 256 * byte d 2 < 50 →
      (raw_hid_receive s d).1.blink_period = 50) := by
  have hv : byte d 1 ||| (byte d 2 <<< 8) = byte d 1 + 256 * byte d 2 :=
    lor_shiftLeft_eq_add _ _ (byte_lt d 1)
  constructor <;> intro hb <;> simp [raw_hid_receive, h, hv] <;> omega

/-- Witness for C7: period 30 ms (below the floor) is clamped to 50. -/
theorem c7_blink_period_clamp_witness :
    (raw_hid_receive initState [0x08, 30, 0]).1.blink_period = 50 :=
  (c7_blink_period_clamp initState [0x08, 30, 0] (by decide)).2 (by decide)

/-- The inbound opcodes with a dedicated `case` in `raw_hid_receive`. -/
def handledOpcodes : List Nat :=
  [0x01, 0x02, 0x03, 0x04, 0x05, 0x06, 0x07, 0x08, 0x09, 0x0A, 0xF0]

/-- Claim C8: an inbound frame with an opcode outside the handled set
produces exactly one response frame, echoing the opcode in byte 0 with
failure 0xFF in byte 1, and the state is untouched. -/
theorem c8_unknown_opcode (s : FrameState) (d : List Nat) (h : byte d 0 ∉ handledOpcodes) :
    raw_hid_receive s d = (s, [resp2 (byte d 0) 0xFF], false) ∧
    (resp2 (byte d 0) 0xFF).getD 0 0 = byte d 0 ∧
    (resp2 (byte d 0) 0xFF).getD 1 0 = 0xFF := by
  simp [handledOpcodes] at h
  obtain ⟨h1, h2, h3, h4, h5, h6, h7, h8, h9, hA, hF⟩ := h
  exact ⟨by simp [raw_hid_receive, h1, h2, h3, h4, h5, h6, h7, h8, h9, hA, hF], rfl, rfl⟩

/-- Witness for C8: opcode 0x42 is unknown and fails without mutation. -/
theorem c8_unknown_opcode_witness :
    raw_hid_receive mState [0x42] = (mState, [resp2 0x42 0xFF], false) :=
  (c8_unknown_opcode mState [0x42] (by decide)).1

/-- Claim C4: a reboot command (opcode 0x09) whose payload is not the
exact magic pair (0xB0, 0x07) yields a failure response and leaves the
whole state (mode and LED frame state) unchanged; with the magic pair
the device sends a success response and then restarts. -/
theorem c4_reboot_magic (s : FrameState) (d : List Nat) (h : byte d 0 = 0x09) :
    (¬(byte d 1 = 0xB0 ∧ byte d 2 = 0x07) →
      raw_hid_receive s d = (s, [resp2 0x09 0xFF], false) ∧
      (resp2 0x09 0xFF).getD 1 0 = 0xFF) ∧
    ((byte d 1 = 0xB0 ∧ byte d 2 = 0x07) →
      raw_hid_receive s d = (s, [resp2 0x09 0x01], true) ∧
      (resp2 0x09 0x01).getD 1 0 = 0x01) := by
  constructor <;> intro hm
  · exact ⟨by simp [raw_hid_receive, h, hm], by decide⟩
  · exact ⟨by simp [raw_hid_receive, h, hm.1, hm.2], by decide⟩

/-- Witness for C4: reboot with zero payload (wrong magic) fails and
leaves the reset state unchanged. -/
theorem c4_reboot_magic_witness :
    raw_hid_receive initState [0x09] = (initState, [resp2 0x09 0xFF], false) :=
  ((c4_reboot_magic initState [0x09] (by decide)).1 (by decide)).1

/-- Set-range frame with start 10 and count 5: start + count = 15
exceeds the 12-LED buffer. -/
def oobRangeF : List Nat := [0x02, 10, 5, 1, 2, 3, 4, 5, 6, 7, 8, 9, 10, 11, 12]

/-- Counterexample to C1 as stated: an out-of-bounds set-range received
in Managed mode is answered with success 0x01, not with the failure
indicator 0xFF the claim requires. -/
theorem c1_set_range_oob_counterexample :
    mState.direct_mode = true ∧
    byte oobRangeF 0 = 0x02 ∧
    NUM_LEDS < byte oobRangeF 1 + byte oobRangeF 2 ∧
    ((raw_hid_receive mState oobRangeF).2.1.headD []).getD 1 0 ≠ 0xFF ∧
    ((raw_hid_receive mState oobRangeF).2.1.headD []).getD 1 0 = 0x01 := by decide

/-- Claim C1 amended: a set-range command whose start + count exceeds
the LED count leaves the entire state unchanged (all-or-nothing: no LED
is written) and is answered with a success response. -/
theorem c1_set_range_oob (s : FrameState) (d : List Nat) (h : byte d 0 = 0x02)
    (hoob : NUM_LEDS < byte d 1 + byte d 2) :
    raw_hid_receive s d = (s, [resp2 0x02 0x01], false) := by
  have hcond : ¬(s.direct_mode = true ∧ byte d 1 + byte d 2 ≤ NUM_LEDS ∧ byte d 2 ≤ 9) := by
    rintro ⟨-, hle, -⟩
    omega
  simp [raw_hid_receive, h, hcond]

/-- Witness for the amended C1 at a concrete out-of-bounds frame. -/
theorem c1_set_range_oob_witness :
    raw_hid_receive mState oobRangeF = (mState, [resp2 0x02 0x01], false) :=
  c1_set_range_oob mState oobRangeF (by decide) (by decide)

/-- Set-blink-flag frame enabling blink on LED 0. -/
def blinkOnF : List Nat := [0x07, 0, 1]

/-- Counterexample to C2 as stated: a set-blink-flag command received in
Native mode is a mutation command, yet it changes the LED Frame State
(the blink mask goes from 0 to 1). -/
theorem c2_native_mutation_counterexample :
    initState.direct_mode = false ∧
    isMutationFrame blinkOnF ∧
    (raw_hid_receive initState blinkOnF).1 ≠ initState ∧
    (raw_hid_receive initState blinkOnF).1.blink_mask = 1 ∧
    initState.blink_mask = 0 := by decide

/-- Claim C2 amended: every mutation command received in Native mode is
answered with success and leaves the mode and the LED color buffer
unchanged; set-one, set-range and set-all additionally leave the whole
state unchanged, while set-blink-flag and set-blink-period are applied
to the blink mask and blink period regardless of mode. -/
theorem c2_native_mutation (s : FrameState) (d : List Nat)
    (hn : s.direct_mode = false) (hm : isMutationFrame d) :
    (raw_hid_receive s d).1.direct_mode = false ∧
    (raw_hid_receive s d).1.led_buf = s.led_buf ∧
    (raw_hid_receive s d).2.1 = [resp2 (byte d 0) 0x01] ∧
    (raw_hid_receive s d).2.2 = false ∧
    ((byte d 0 = 0x01 ∨ byte d 0 = 0x02 ∨ byte d 0 = 0x04) →
      raw_hid_receive s d = (s, [resp2 (byte d 0) 0x01], false)) := by
  rcases hm with h | h | h | h | h
  · simp [raw_hid_receive, h, hn]
  · simp [raw_hid_receive, h, hn]
  · simp [raw_hid_receive, h, hn]
  · refine ⟨?_, ?_, ?_, ?_, by simp [h]⟩ <;>
      simp [raw_hid_receive, h, hn] <;> split <;> (try split) <;> simp [hn]
  · refine ⟨?_, ?_, ?_, ?_, by simp [h]⟩ <;> simp [raw_hid_receive, h, hn]

/-- Witness for the amended C2: a set-all frame in Native mode. -/
theorem c2_native_mutation_witness :
    (raw_hid_receive initState [0x04, 9, 9, 9]).1.led_buf = initState.led_buf :=
  (c2_native_mutation initState [0x04, 9, 9, 9] (by decide) (by decide)).2.1

/-- Claim C10: in Managed mode a set-one command with a valid index
writes exactly that LED's color; every other LED, the blink mask, the
blink period and the mode are unchanged, and the response is success. -/
theorem c10_set_one_frame (s : FrameState) (d : List Nat)
    (hd : s.direct_mode = true) (h : byte d 0 = 0x01)
    (hi : byte d 1 < NUM_LEDS) (hlen : s.led_buf.length = NUM_LEDS) :
    (raw_hid_receive s d).1.led_buf.getD (byte d 1) (0, 0, 0) =
      (byte d 2, byte d 3, byte d 4) ∧
    (∀ j, j ≠ byte d 1 →
      (raw_hid_receive s d).1.led_buf.getD j (0, 0, 0) = s.led_buf.getD j (0, 0, 0)) ∧
    (raw_hid_receive s d).1.direct_mode = s.direct_mode ∧
    (raw_hid_receive s d).1.blink_mask = s.blink_mask ∧
    (raw_hid_receive s d).1.blink_period = s.blink_period ∧
    (raw_hid_receive s d).2.1 = [resp2 0x01 0x01] ∧
    (raw_hid_receive s d).2.2 = false := by
  have hil : byte d 1 < s.led_buf.length := by omega
  refine ⟨?_, ?_, ?_, ?_, ?_, ?_, ?_⟩ <;>
    simp [raw_hid_receive, h, hi, hd, List.getD_eq_getElem?_getD]
  · rw [List.getElem?_set_eq_of_lt _ hil]
    rfl
  · intro j hj
    rw [List.getElem?_set_ne (by omega)]

/-- Witness for C10: set LED 3 to (7, 8, 9) in a Managed-mode state. -/
theorem c10_set_one_frame_witness :
    (raw_hid_receive mState [0x01, 3, 7, 8, 9]).1.led_buf.getD 3 (0, 0, 0) = (7, 8, 9) :=
  (c10_set_one_frame mState [0x01, 3, 7, 8, 9] (by decide) (by decide)
    (by decide) (by decide)).1

/-- Claim C6: on a render tick in Managed mode, a LED whose blink flag
is clear shows its stored color converted to RGB; a LED whose blink flag
is set shows the stored color while (time mod period) is below half the
period, and black otherwise. -/
theorem c6_render_tick (t : Nat) (s : FrameState) (hs : s.direct_mode = true)
    (i : Nat) (hi : i < NUM_LEDS) :
    ∃ f, rgb_matrix_indicators_user t s = some f ∧
      (s.blink_mask &&& (1 <<< i) = 0 →
        f i = hsv_to_rgb (s.led_buf.getD i (0, 0, 0))) ∧
      (s.blink_mask &&& (1 <<< i) ≠ 0 →
        f i = if t % s.blink_period < s.blink_period / 2
              then hsv_to_rgb (s.led_buf.getD i (0, 0, 0))
              else (0, 0, 0)) := by
  refine ⟨renderLed t s, by simp [rgb_matrix_indicators_user, hs], ?_, ?_⟩
  · intro h0
    simp [renderLed, h0]
  · intro hne
    by_cases hb : t % s.blink_period < s.blink_period / 2 <;> simp [renderLed, hne, hb]

/-- Witness for C6 at tick 0 in a Managed state with LED 0 blinking. -/
theorem c6_render_tick_witness :
    ∃ f, rgb_matrix_indicators_user 0
        { direct_mode := true, led_buf := List.replicate NUM_LEDS (3, 4, 5),
          blink_mask := 1, blink_period := 500 } = some f ∧
      ((1 : Nat) &&& (1 <<< 0) = 0 →
        f 0 = hsv_to_rgb ((List.replicate NUM_LEDS ((3 : Nat), (4 : Nat), (5 : Nat))).getD 0 (0, 0, 0))) ∧
      ((1 : Nat) &&& (1 <<< 0) ≠ 0 →
        f 0 = if (0 : Nat) % 500 < 500 / 2
              then hsv_to_rgb ((List.replicate NUM_LEDS ((3 : Nat), (4 : Nat), (5 : Nat))).getD 0 (0, 0, 0))
              else (0, 0, 0)) :=
  c6_render_tick 0
    { direct_mode := true, led_buf := List.replicate NUM_LEDS (3, 4, 5),
      blink_mask := 1, blink_period := 500 } (by decide) 0 (by decide)

/-- No mutation command reaches `reset_keyboard()`. -/
lemma mutation_no_restart (s : FrameState) (d : List Nat) (h : isMutationFrame d) :
    (raw_hid_receive s d).2.2 = false := by
  rcases h with h | h | h | h | h <;> simp [raw_hid_receive, h]

/-- Running any sequence of mutation commands and then exit-managed and
enter-managed ends in Managed mode with an all-black buffer and a clear
blink mask, whatever the starting state. -/
lemma run_mut_exit_enter (M : List (List Nat)) (hM : ∀ d ∈ M, isMutationFrame d)
    (s : FrameState) :
    (runFrames s (M ++ [exitF, enterF])).direct_mode = true ∧
    (runFrames s (M ++ [exitF, enterF])).led_buf = List.replicate NUM_LEDS (0, 0, 0) ∧
    (runFrames s (M ++ [exitF, enterF])).blink_mask = 0 := by
  induction M generalizing s with
  | nil => exact ⟨rfl, rfl, rfl⟩
  | cons d M ih =>
    have hd : isMutationFrame d := hM d (by simp)
    have hr : (raw_hid_receive s d).2.2 = false := mutation_no_restart s d hd
    have hstep : runFrames s ((d :: M) ++ [exitF, enterF]) =
        runFrames (raw_hid_receive s d).1 (M ++ [exitF, enterF]) := by
      simp [runFrames, hr]
    rw [hstep]
    exact ih (fun e he => hM e (by simp [he])) (raw_hid_receive s d).1

/-- Counterexample to C3 as stated: with M = [set-blink-period 1000],
the round trip enter, M, exit, enter does not reproduce the state of a
single enter — the blink period differs, because neither exit-managed
nor enter-managed resets it. -/
theorem c3_round_trip_counterexample :
    (∀ d ∈ [setBlinkPeriodF 232 3], isMutationFrame d) ∧
    runFrames initState (enterF :: [setBlinkPeriodF 232 3] ++ [exitF, enterF]) ≠
      runFrames initState [enterF] ∧
    (runFrames initState (enterF :: [setBlinkPeriodF 232 3] ++ [exitF, enterF])).blink_period
      = 1000 ∧
    (runFrames initState [enterF]).blink_period = 500 := by decide

/-- Claim C3 amended: for every starting state and every sequence M of
mutation commands, the round trip enter, M, exit, enter agrees with a
single enter on the mode, the color buffer and the blink mask (re-entry
is all-black and non-blinking); the blink period is exempt, as it is
reset by neither command. -/
theorem c3_round_trip (s : FrameState) (M : List (List Nat))
    (hM : ∀ d ∈ M, isMutationFrame d) :
    (runFrames s (enterF :: M ++ [exitF, enterF])).direct_mode =
      (runFrames s [enterF]).direct_mode ∧
    (runFrames s (enterF :: M ++ [exitF, enterF])).led_buf =
      (runFrames s [enterF]).led_buf ∧
    (runFrames s (enterF :: M ++ [exitF, enterF])).blink_mask =
      (runFrames s [enterF]).blink_mask := by
  have hstep : runFrames s (enterF :: M ++ [exitF, enterF]) =
      runFrames (raw_hid_receive s enterF).1 (M ++ [exitF, enterF]) := by
    simp [runFrames, raw_hid_receive, enterF, byte]
  rw [hstep]
  exact run_mut_exit_enter M hM (raw_hid_receive s enterF).1

/-- Witness for the amended C3 with M = one set-blink-period command. -/
theorem c3_round_trip_witness :
    (runFrames initState (enterF :: [setBlinkPeriodF 232 3] ++ [exitF, enterF])).led_buf =
      (runFrames initState [enterF]).led_buf :=
  (c3_round_trip initState [setBlinkPeriodF 232 3] (by decide)).2.1

set_option maxHeartbeats 2000000 in
/-- Claim C9: in Managed mode, a set-all command followed by a set-one
command for every LED index yields the same state — and hence identical
render output at any tick — as issuing only the set-one commands.  The
starting buffer entries, the blink mask and the blink period are
arbitrary. -/
theorem c9_set_all_then_set_ones
    (c e0 e1 e2 e3 e4 e5 e6 e7 e8 e9 e10 e11
     b0 b1 b2 b3 b4 b5 b6 b7 b8 b9 b10 b11 : Color) (mask period : Nat) :
    runFrames ⟨true, [b0, b1, b2, b3, b4, b5, b6, b7, b8, b9, b10, b11], mask, period⟩
      (setAllF c ::
        [setOneF 0 e0, setOneF 1 e1, setOneF 2 e2, setOneF 3 e3, setOneF 4 e4,
         setOneF 5 e5, setOneF 6 e6, setOneF 7 e7, setOneF 8 e8, setOneF 9 e9,
         setOneF 10 e10, setOneF 11 e11]) =
    runFrames ⟨true, [b0, b1, b2, b3, b4, b5, b6, b7, b8, b9, b10, b11], mask, period⟩
      [setOneF 0 e0, setOneF 1 e1, setOneF 2 e2, setOneF 3 e3, setOneF 4 e4,
       setOneF 5 e5, setOneF 6 e6, setOneF 7 e7, setOneF 8 e8, setOneF 9 e9,
       setOneF 10 e10, setOneF 11 e11] ∧
    ∀ t i,
      renderLed t (runFrames ⟨true, [b0, b1, b2, b3, b4, b5, b6, b7, b8, b9, b10, b11], mask, period⟩
        (setAllF c ::
          [setOneF 0 e0, setOneF 1 e1, setOneF 2 e2, setOneF 3 e3, setOneF 4 e4,
           setOneF 5 e5, setOneF 6 e6, setOneF 7 e7, setOneF 8 e8, setOneF 9 e9,
           setOneF 10 e10, setOneF 11 e11])) i =
      renderLed t (runFrames ⟨true, [b0, b1, b2, b3, b4, b5, b6, b7, b8, b9, b10, b11], mask, period⟩
        [setOneF 0 e0, setOneF 1 e1, setOneF 2 e2, setOneF 3 e3, setOneF 4 e4,
         setOneF 5 e5, setOneF 6 e6, setOneF 7 e7, setOneF 8 e8, setOneF 9 e9,
         setOneF 10 e10, setOneF 11 e11]) i := by
  have h : runFrames ⟨true, [b0, b1, b2, b3, b4, b5, b6, b7, b8, b9, b10, b11], mask, period⟩
      (setAllF c ::
        [setOneF 0 e0, setOneF 1 e1, setOneF 2 e2, setOneF 3 e3, setOneF 4 e4,
         setOneF 5 e5, setOneF 6 e6, setOneF 7 e7, setOneF 8 e8, setOneF 9 e9,
         setOneF 10 e10, setOneF 11 e11]) =
      runFrames ⟨true, [b0, b1, b2, b3, b4, b5, b6, b7, b8, b9, b10, b11], mask, period⟩
      [setOneF 0 e0, setOneF 1 e1, setOneF 2 e2, setOneF 3 e3, setOneF 4 e4,
       setOneF 5 e5, setOneF 6 e6, setOneF 7 e7, setOneF 8 e8, setOneF 9 e9,
       setOneF 10 e10, setOneF 11 e11] := by
    simp [runFrames, raw_hid_receive, setOneF, setAllF, byte, setAllBuf, setRangeBuf,
      NUM_LEDS, List.range_succ]
  exact ⟨h, fun t i => by rw [h]⟩
